/-
Verification of the Memory Scramble backend (src/backend): a shallow
embedding of `src/game/board.py` (class `Board`) and
`src/commands/commands.py` (class `GameManager`), together with theorems
settling the specification claims about them.

Conventions of the embedding:
* Python `assert` failures and other exceptions raised inside a mutator are
  modelled by returning the post-state paired with `some errorMessage`;
  the post-state carries any mutation already applied before the raise
  (Python objects stay mutated when an exception escapes).
* Python `None` for an optional string is `Option.none`; the dynamic
  `isinstance(x, str)` checks become pattern matches on the `Option`.
* Coordinates arrive as Python `int`, so they are Lean `Int` at every
  public entry point; they are converted to `Nat` only after the
  `0 <= x < width` bounds assertions have passed.
* The JSON dictionaries returned by `GameManager` methods are association
  lists `List (String × JVal)`.
-/
import Mathlib

namespace MemoryScramble

/-- Modelled from the spec: the file `src/game/space.py` (class `Space`) is
not present in the sources, but §3 of the design document describes it as an
immutable value `{ card : optional CardId, faceUp : bool, controller :
optional PlayerId }`, and `board.py` constructs it with exactly the keyword
fields `card`, `is_face_up`, `controlled_by` and reads exactly those three
attributes. -/
structure Space where
  card : Option String
  is_face_up : Bool
  controlled_by : Option String
deriving DecidableEq, Repr

/-- The mutable grid of `board.py`: `_grid` is indexed `[y][x]`. -/
structure Board where
  width : Nat
  height : Nat
  grid : List (List Space)
deriving DecidableEq, Repr

/-- `self._grid[y][x]` as a partial read (`none` models an `IndexError`). -/
def getCell (b : Board) (x y : Nat) : Option Space :=
  b.grid[y]?.bind (fun row => row[x]?)

/-- `self._grid[y][x] = s` (out-of-range writes leave the list unchanged,
which never happens on the paths where the source performs them). -/
def setCell (b : Board) (x y : Nat) (s : Space) : Board :=
  { b with grid := b.grid.set y ((b.grid.getD y []).set x s) }

/-- Python `str.isspace()`: true iff the string is nonempty and every
character is whitespace. -/
def pyIsSpace (s : String) : Bool :=
  !(s == "") && s.toList.all Char.isWhitespace

/-- Helper for `pySplit`: scan the characters, accumulating the current
token (in reverse) and emitting it at each whitespace run or at the end. -/
def wsChunksAux : List Char → List Char → List (List Char)
  | [], acc => if acc.isEmpty then [] else [acc.reverse]
  | c :: rest, acc =>
    if c.isWhitespace then
      if acc.isEmpty then wsChunksAux rest []
      else acc.reverse :: wsChunksAux rest []
    else wsChunksAux rest (c :: acc)

/-- Python `str.split()` with no argument: split on runs of whitespace,
discarding empty pieces. -/
def pySplit (s : String) : List String :=
  (wsChunksAux s.toList []).map (fun cs => String.mk cs)

/-- Python `str.strip()`: drop whitespace from both ends. -/
def pyStrip (s : String) : String :=
  String.mk (((s.toList.dropWhile Char.isWhitespace).reverse.dropWhile
    Char.isWhitespace).reverse)

/-- The cards present on the board, row-major (`Space.card` of every cell,
skipping removed cells). -/
def boardCards (b : Board) : List String :=
  (b.grid.flatten).filterMap Space.card

/-- `Board.check_rep` as a boolean: `true` iff none of its assertions fire.
The `isinstance` assertions are enforced by typing; the redundant
`total_spaces` recount is implied by the two dimension conjuncts. -/
def Board.check_rep (b : Board) : Bool :=
  (b.grid.length == b.height) &&
  (b.grid.all (fun row => row.length == b.width)) &&
  (b.grid.all (fun row => row.all (fun s =>
    (match s.card with
     | none => !s.is_face_up && (s.controlled_by == none)
     | some c => !(c == "") && !(pyIsSpace c)) &&
    (match s.controlled_by with
     | none => true
     | some p => s.is_face_up && !(p == ""))))) &&
  ((boardCards b).all (fun c => (boardCards b).count c == 2))

/-- `Board.flip_card(x, y)`: toggle the face-up bit; flipping face-down
releases control.  The returned board is the object state at the moment the
call returns or raises; `some msg` models a raised exception. -/
def Board.flip_card (b : Board) (x y : Int) : Board × Option String :=
  if ¬ (0 ≤ x ∧ x < (b.width : Int)) then (b, some ("x=" ++ toString x ++ " out of bounds"))
  else if ¬ (0 ≤ y ∧ y < (b.height : Int)) then (b, some ("y=" ++ toString y ++ " out of bounds"))
  else
    match getCell b x.toNat y.toNat with
    | none => (b, some "list index out of range")
    | some space =>
      match space.card with
      | none => (b, some ("No card at (" ++ toString x ++ ", " ++ toString y ++ ")"))
      | some _ =>
        let new_is_face_up := !space.is_face_up
        let new_controlled_by := if new_is_face_up then space.controlled_by else none
        let b' := setCell b x.toNat y.toNat
          { card := space.card, is_face_up := new_is_face_up,
            controlled_by := new_controlled_by }
        if b'.check_rep then (b', none) else (b', some "check_rep failed")

/-- `Board.set_control(x, y, player_id)`.  `player_id : Option String`
because `GameManager.check_match` passes Python `None`; the
`isinstance(player_id, str)` assertion rejects it. -/
def Board.set_control (b : Board) (x y : Int) (player_id : Option String) :
    Board × Option String :=
  if ¬ (0 ≤ x ∧ x < (b.width : Int)) then (b, some ("x=" ++ toString x ++ " out of bounds"))
  else if ¬ (0 ≤ y ∧ y < (b.height : Int)) then (b, some ("y=" ++ toString y ++ " out of bounds"))
  else
    match player_id with
    | none => (b, some "player_id must be string")
    | some p =>
      if p == "" then (b, some "player_id must be non-empty")
      else
        match getCell b x.toNat y.toNat with
        | none => (b, some "list index out of range")
        | some space =>
          match space.card with
          | none => (b, some ("No card at (" ++ toString x ++ ", " ++ toString y ++ ")"))
          | some _ =>
            if ¬ space.is_face_up then
              (b, some ("Card at (" ++ toString x ++ ", " ++ toString y ++
                ") must be face-up to control"))
            else
              let b' := setCell b x.toNat y.toNat
                { card := space.card, is_face_up := space.is_face_up,
                  controlled_by := some p }
              if b'.check_rep then (b', none) else (b', some "check_rep failed")

/-- `Board.remove_control(x, y)`. -/
def Board.remove_control (b : Board) (x y : Int) : Board × Option String :=
  if ¬ (0 ≤ x ∧ x < (b.width : Int)) then (b, some ("x=" ++ toString x ++ " out of bounds"))
  else if ¬ (0 ≤ y ∧ y < (b.height : Int)) then (b, some ("y=" ++ toString y ++ " out of bounds"))
  else
    match getCell b x.toNat y.toNat with
    | none => (b, some "list index out of range")
    | some space =>
      match space.card with
      | none => (b, some ("No card at (" ++ toString x ++ ", " ++ toString y ++ ")"))
      | some _ =>
        let b' := setCell b x.toNat y.toNat
          { card := space.card, is_face_up := space.is_face_up, controlled_by := none }
        if b'.check_rep then (b', none) else (b', some "check_rep failed")

/-- `Board.remove_card(x, y)`: empty the cell.  The source deliberately
does **not** call `check_rep` here. -/
def Board.remove_card (b : Board) (x y : Int) : Board × Option String :=
  if ¬ (0 ≤ x ∧ x < (b.width : Int)) then (b, some ("x=" ++ toString x ++ " out of bounds"))
  else if ¬ (0 ≤ y ∧ y < (b.height : Int)) then (b, some ("y=" ++ toString y ++ " out of bounds"))
  else
    match getCell b x.toNat y.toNat with
    | none => (b, some "list index out of range")
    | some space =>
      match space.card with
      | none => (b, some ("No card at (" ++ toString x ++ ", " ++ toString y ++ ") to remove"))
      | some _ =>
        if ¬ space.is_face_up then
          (b, some ("Card at (" ++ toString x ++ ", " ++ toString y ++
            ") must be face-up to remove"))
        else
          (setCell b x.toNat y.toNat
            { card := none, is_face_up := false, controlled_by := none }, none)

/-- The `card_list` of `Board.__init__`: every card of the set, duplicated. -/
def dupEach : List String → List String
  | [] => []
  | c :: rest => c :: c :: dupEach rest

/-- The grid-filling loop of `Board.__init__`: row-major rows of `w` cells,
each face-down and uncontrolled, consuming the shuffled card list in order. -/
def buildRows (l : List String) (w : Nat) : Nat → List (List Space)
  | 0 => []
  | Nat.succ h =>
    ((l.take w).map (fun c => { card := some c, is_face_up := false, controlled_by := none }))
      :: buildRows (l.drop w) w h

/-- `Board.__init__(width, height, cards)`.  `cards` is the Python set in
its (unspecified) iteration order; `shuffle` models `random.shuffle`, which
permutes `card_list` in place — theorems hypothesise that it is a
permutation.  A raised `AssertionError` becomes `Except.error`; if the
supplied `shuffle` is not length-preserving the final `check_rep` guard
fails, matching the `IndexError` the grid loop would raise. -/
def Board.init (width height : Int) (cards : List String)
    (shuffle : List String → List String) : Except String Board :=
  if ¬ (0 < width) then .error "width must be positive"
  else if ¬ (0 < height) then .error "height must be positive"
  else if cards.length == 0 then .error "cards cannot be empty"
  else if ¬ (cards.length * 2 == width.toNat * height.toNat) then
    .error ("Must have exactly " ++ toString (width * height) ++ " spaces but got " ++
      toString (cards.length * 2) ++ " cards")
  else
    let card_list := shuffle (dupEach cards)
    let b : Board := { width := width.toNat, height := height.toNat,
                       grid := buildRows card_list width.toNat height.toNat }
    if b.check_rep then .ok b else .error "check_rep failed"

/-- Python `int(s)` on a whitespace-free token: optional sign, then decimal
digits. -/
def pyInt? (s : String) : Option Int :=
  match s.toList with
  | [] => none
  | '+' :: ds =>
    if !ds.isEmpty && ds.all Char.isDigit then
      some ((ds.foldl (fun acc c => acc * 10 + (c.toNat - 48)) 0 : Nat) : Int)
    else none
  | '-' :: ds =>
    if !ds.isEmpty && ds.all Char.isDigit then
      some (-((ds.foldl (fun acc c => acc * 10 + (c.toNat - 48)) 0 : Nat) : Int))
    else none
  | ds =>
    if ds.all Char.isDigit then
      some ((ds.foldl (fun acc c => acc * 10 + (c.toNat - 48)) 0 : Nat) : Int)
    else none

/-- The dimension phase of `Board.parse_from_file`: `lines[0].strip().split()`
must be two tokens parsing as positive integers. -/
def parseDims (line0 : String) : Except String (Int × Int) :=
  let dims := pySplit (pyStrip line0)
  if ¬ (dims.length == 2) then
    .error "First line must be width height (space-separated integers)"
  else
    match pyInt? (dims.getD 0 ""), pyInt? (dims.getD 1 "") with
    | some w, some h =>
      if 0 < w ∧ 0 < h then .ok (w, h)
      else .error ("Dimensions must be positive, got width=" ++ toString w ++
        ", height=" ++ toString h)
    | _, _ => .error "Width and height must be integers"

/-- The card tokens of the file: every line after the first is stripped,
empty lines skipped, the rest split on whitespace, in order. -/
def tokensOf (lines : List String) : List String :=
  (lines.drop 1).flatMap (fun ln =>
    let l := pyStrip ln
    if l == "" then [] else pySplit l)

/-- `Board.parse_from_file`, over the list of lines of the file (the I/O
wrapper only re-raises `FileNotFoundError`).  `set(card_counts.keys())` has
an unspecified iteration order, so we pass `cards_list.dedup`; any
reordering between the two is absorbed into the arbitrary `shuffle`. -/
def Board.parse_from_file (lines : List String)
    (shuffle : List String → List String) : Except String Board :=
  if lines.length == 0 then .error "File must have at least 1 line with dimensions"
  else
    match parseDims (lines.getD 0 "") with
    | .error e => .error e
    | .ok (w, h) =>
      let cards_list := tokensOf lines
      if ¬ (cards_list.length == w.toNat * h.toNat) then
        .error ("Expected " ++ toString (w * h) ++ " cards total, got " ++
          toString cards_list.length ++ ". (Board is " ++ toString w ++ "x" ++
          toString h ++ ")")
      else if cards_list.any (fun c => (c == "") || pyIsSpace c) then
        .error "Card identifiers cannot be empty or whitespace only"
      else if cards_list.any (fun c => !(cards_list.count c == 2)) then
        .error "Each card must appear exactly 2 times"
      else
        Board.init w h cards_list.dedup shuffle

/-- Collect a list of optional values, failing on the first `none` (the
shape of a Python loop that may raise `IndexError` part-way). -/
def optList {α : Type} : List (Option α) → Option (List α)
  | [] => some []
  | none :: _ => none
  | some a :: rest => (optList rest).map (fun l => a :: l)

/-- A JSON value as produced by the `GameManager` methods. -/
inductive JVal where
  | jb : Bool → JVal
  | js : String → JVal
  | jn : Nat → JVal
  | jnull : JVal
  | jgrid : List (List Space) → JVal
  | jscores : List (String × Nat) → JVal
deriving DecidableEq, Repr

/-- A JSON dictionary (the Python dicts returned to the transport layer). -/
abbrev Dict := List (String × JVal)

/-- Update of a Python dict entry, preserving insertion order. -/
def alistSet {α : Type} (m : List (String × α)) (k : String) (v : α) :
    List (String × α) :=
  match m with
  | [] => [(k, v)]
  | (k', v') :: rest => if k' == k then (k, v) :: rest else (k', v') :: alistSet rest k v

/-- The state owned by a `GameManager`: the board plus the `scores` and
`pending_cards` dicts. -/
structure GMState where
  board : Board
  scores : List (String × Nat)
  pending_cards : List (String × List (Int × Int × String))
deriving DecidableEq, Repr

namespace GameManager

/-- The nested loops of `_serialize_board`; `none` models the `IndexError`
its internal `try` would catch. -/
def serializeCells (b : Board) : Option (List (List Space)) :=
  optList ((List.range b.height).map (fun y =>
    optList ((List.range b.width).map (fun x => getCell b x y))))

/-- `GameManager._serialize_board`: each cell becomes the dict
`{card, is_face_up, controlled_by}` — the same three fields as `Space`, so
cells are reused as the serialized form; on any internal exception the
method returns `[]`. -/
def serialize_board (st : GMState) : List (List Space) :=
  match serializeCells st.board with
  | some g => g
  | none => []

/-- `GameManager.look`.  `_serialize_board` catches its own exceptions, so
the `except` branch of `look` is unreachable and `look` always reports
`ok = True`. -/
def look (st : GMState) (player_id : String) : Dict :=
  [("board", JVal.jgrid (serialize_board st)),
   ("width", JVal.jn st.board.width),
   ("height", JVal.jn st.board.height),
   ("scores", JVal.jscores st.scores),
   ("ok", JVal.jb true)]

/-- The dict built by the `except Exception` handlers of `flip` and
`check_match`. -/
def errDict (m : String) : Dict :=
  [("ok", JVal.jb false), ("message", JVal.js ("Error: " ++ m))]

/-- `GameManager.flip`.  `hasattr(self.board, 'wait_for_flip')` is false —
`Board` defines no such method — so the synchronous fallback
(`flip_card` then `set_control`) is the code that runs.  A board exception
is caught, but the board keeps whatever mutation it had already applied. -/
def flip (st : GMState) (player_id : String) (x y : Int) : GMState × Dict :=
  if x < 0 || (st.board.width : Int) ≤ x || y < 0 || (st.board.height : Int) ≤ y then
    (st, [("ok", JVal.jb false),
          ("message", JVal.js ("Position (" ++ toString x ++ ", " ++ toString y ++
            ") out of bounds (" ++ toString st.board.width ++ "x" ++
            toString st.board.height ++ ")"))])
  else
    match getCell st.board x.toNat y.toNat with
    | none => (st, errDict "list index out of range")
    | some space =>
      match space.card with
      | none =>
        (st, [("ok", JVal.jb false),
              ("message", JVal.js ("No card at (" ++ toString x ++ ", " ++
                toString y ++ ")"))])
      | some card_value =>
        match Board.flip_card st.board x y with
        | (b1, some m) => ({ st with board := b1 }, errDict m)
        | (b1, none) =>
          match Board.set_control b1 x y (some player_id) with
          | (b2, some m) => ({ st with board := b2 }, errDict m)
          | (b2, none) =>
            let pending := (List.lookup player_id st.pending_cards).getD []
            ({ st with
                board := b2,
                pending_cards := alistSet st.pending_cards player_id
                  (pending ++ [(x, y, card_value)]) },
             [("ok", JVal.jb true),
              ("message", JVal.js ("Flipped " ++ card_value ++ " at (" ++
                toString x ++ ", " ++ toString y ++ ")")),
              ("card", JVal.js card_value)])

/-- `GameManager.check_match`.  The two most recent pending cards are
`pending[-2]` and `pending[-1]`; the board calls are chained exactly as in
the source, stopping at the first raised exception, whose message the
`except` handler wraps.  Note both branches call
`Board.set_control(..., None)`. -/
def check_match (st : GMState) (player_id : String) : GMState × Dict :=
  let pending := (List.lookup player_id st.pending_cards).getD []
  if pending.length < 2 then
    (st, [("ok", JVal.jb false), ("message", JVal.js "No two cards to check")])
  else
    match pending.getD (pending.length - 2) (0, 0, ""),
          pending.getD (pending.length - 1) (0, 0, "") with
    | (x1, y1, card1), (x2, y2, card2) =>
      if card1 == card2 then
        match Board.set_control st.board x1 y1 none with
        | (b, some m) => ({ st with board := b }, errDict m)
        | (b, none) =>
          match Board.set_control b x2 y2 none with
          | (b, some m) => ({ st with board := b }, errDict m)
          | (b, none) =>
            match Board.flip_card b x1 y1 with
            | (b, some m) => ({ st with board := b }, errDict m)
            | (b, none) =>
              match Board.flip_card b x2 y2 with
              | (b, some m) => ({ st with board := b }, errDict m)
              | (b, none) =>
                ({ st with
                    board := b,
                    scores := alistSet st.scores player_id
                      ((List.lookup player_id st.scores).getD 0 + 1),
                    pending_cards := alistSet st.pending_cards player_id [] },
                 [("ok", JVal.jb true), ("matched", JVal.jb true),
                  ("card", JVal.js card1)])
      else
        match Board.flip_card st.board x1 y1 with
        | (b, some m) => ({ st with board := b }, errDict m)
        | (b, none) =>
          match Board.flip_card b x2 y2 with
          | (b, some m) => ({ st with board := b }, errDict m)
          | (b, none) =>
            match Board.set_control b x1 y1 none with
            | (b, some m) => ({ st with board := b }, errDict m)
            | (b, none) =>
              match Board.set_control b x2 y2 none with
              | (b, some m) => ({ st with board := b }, errDict m)
              | (b, none) =>
                ({ st with
                    board := b,
                    pending_cards := alistSet st.pending_cards player_id [] },
                 [("ok", JVal.jb true), ("matched", JVal.jb false)])

/-- `GameManager.watch` evaluates `self.board.wait_for_change()`, but
`Board` (board.py) defines no `wait_for_change` method, so the attribute
access raises `AttributeError`, which the `except Exception` handler turns
into the error dict. -/
def watch (st : GMState) (player_id : String) : GMState × Dict :=
  (st, [("ok", JVal.jb false),
        ("error", JVal.js "Board object has no attribute wait_for_change")])

end GameManager

/-- The invariant "a controlled cell is face-up" over a whole board. -/
def CtrlFaceUp (b : Board) : Prop :=
  ∀ row ∈ b.grid, ∀ s ∈ row, s.controlled_by ≠ none → s.is_face_up = true

/-- Board states reachable from a freshly constructed board by any sequence
of `Board` mutators.  Each step takes the post-state of the call whether or
not the call also raised (the mutation survives a late `check_rep` failure;
the early-assert paths return the unchanged board, already reachable). -/
inductive BoardReach : Board → Prop
  | init (w h : Int) (cards : List String) (shuffle : List String → List String)
      (b : Board) : Board.init w h cards shuffle = .ok b → BoardReach b
  | flip (b : Board) (x y : Int) : BoardReach b → BoardReach (Board.flip_card b x y).1
  | setc (b : Board) (x y : Int) (p : Option String) :
      BoardReach b → BoardReach (Board.set_control b x y p).1
  | remc (b : Board) (x y : Int) : BoardReach b → BoardReach (Board.remove_control b x y).1
  | remv (b : Board) (x y : Int) : BoardReach b → BoardReach (Board.remove_card b x y).1

/-- Session states reachable from a given state through the public
`GameManager` operations (`look` reads only; `watch` leaves the state
unchanged). -/
inductive GMReach : GMState → GMState → Prop
  | refl (st : GMState) : GMReach st st
  | flip (st st' : GMState) (p : String) (x y : Int) :
      GMReach st st' → GMReach st (GameManager.flip st' p x y).1
  | check (st st' : GMState) (p : String) :
      GMReach st st' → GMReach st (GameManager.check_match st' p).1
  | watch (st st' : GMState) (p : String) :
      GMReach st st' → GMReach st (GameManager.watch st' p).1

/-- The dict `d` binds the key `"ok"` to a JSON boolean. -/
def hasOkBool (d : Dict) : Prop :=
  ∃ bv : Bool, List.lookup "ok" d = some (JVal.jb bv)

/-- The dict `d` carries a human-readable failure string under `"message"`
or `"error"`. -/
def hasFailureInfo (d : Dict) : Prop :=
  (∃ s : String, List.lookup "message" d = some (JVal.js s)) ∨
  (∃ s : String, List.lookup "error" d = some (JVal.js s))

/-- The deterministic 2×2 board of the specification scenario: cards
`\x7bA, B\x7d`, built by `Board.__init__` with the identity shuffle (row 0
holds the two copies of `A`, row 1 the two copies of `B`). -/
def board0 : Board :=
  { width := 2, height := 2,
    grid := [[{ card := some "A", is_face_up := false, controlled_by := none },
              { card := some "A", is_face_up := false, controlled_by := none }],
             [{ card := some "B", is_face_up := false, controlled_by := none },
              { card := some "B", is_face_up := false, controlled_by := none }]] }

/-- `board0` after `flip_card(0, 0)`: the card at (0,0) is face-up and
uncontrolled. -/
def boardUp : Board := (Board.flip_card board0 0 0).1

/-- A fresh `GameManager` on `board0`. -/
def state0 : GMState := { board := board0, scores := [], pending_cards := [] }

/-- `state0` after player P1 flips (0,0) (the first `A`). -/
def state1 : GMState := (GameManager.flip state0 "P1" 0 0).1

/-- `state1` after player P1 flips (1,0) (the second `A`): two equal
pending cards. -/
def state2 : GMState := (GameManager.flip state1 "P1" 1 0).1

/-- `state1` after player P1 flips (0,1) (a `B`): two unequal pending
cards. -/
def state1b : GMState := (GameManager.flip state1 "P1" 0 1).1

/-- A fresh `GameManager` on `boardUp` (one face-up uncontrolled card). -/
def stateUp : GMState := { board := boardUp, scores := [], pending_cards := [] }

theorem getCell_some_row {b : Board} {x y : Nat} {s : Space} (h : getCell b x y = some s) :
    ∃ row, b.grid[y]? = some row ∧ row[x]? = some s := by
  unfold getCell at h
  cases hg : b.grid[y]? with
  | none => rw [hg] at h; simp at h
  | some row => rw [hg] at h; exact ⟨row, rfl, h⟩

theorem getCell_setCell_self {b : Board} {x y : Nat} {s : Space} (s' : Space)
    (h : getCell b x y = some s) :
    getCell (setCell b x y s') x y = some s' := by
  obtain ⟨row, hg, hr⟩ := getCell_some_row h
  have hy : y < b.grid.length := (List.getElem?_eq_some.mp hg).1
  have hx : x < row.length := (List.getElem?_eq_some.mp hr).1
  have hgd : b.grid.getD y [] = row := by simp [List.getD, hg]
  unfold getCell setCell
  simp only [hgd, List.getElem?_set_eq_of_lt _ hy, Option.bind_some]
  exact List.getElem?_set_eq_of_lt _ hx

theorem filterMap_card_set {row : List Space} {x : Nat} {s : Space} (s' : Space)
    (h : row[x]? = some s) (hcard : s'.card = s.card) :
    (row.set x s').filterMap Space.card = row.filterMap Space.card := by
  induction row generalizing x with
  | nil => simp at h
  | cons a t ih =>
    cases x with
    | zero =>
      simp only [List.getElem?_cons_zero, Option.some.injEq] at h
      subst h
      rw [List.set_cons_zero, List.filterMap_cons, List.filterMap_cons, hcard]
    | succ n =>
      simp only [List.getElem?_cons_succ] at h
      rw [List.set_cons_succ, List.filterMap_cons, List.filterMap_cons, ih h]

theorem flatten_filterMap_card_set {g : List (List Space)} {y : Nat} {row : List Space}
    (row' : List Space) (h : g[y]? = some row)
    (heq : row'.filterMap Space.card = row.filterMap Space.card) :
    ((g.set y row').flatten).filterMap Space.card = (g.flatten).filterMap Space.card := by
  induction g generalizing y with
  | nil => simp at h
  | cons r t ih =>
    cases y with
    | zero =>
      simp only [List.getElem?_cons_zero, Option.some.injEq] at h
      subst h
      rw [List.set_cons_zero, List.flatten_cons, List.flatten_cons,
        List.filterMap_append, List.filterMap_append, heq]
    | succ n =>
      simp only [List.getElem?_cons_succ] at h
      rw [List.set_cons_succ, List.flatten_cons, List.flatten_cons,
        List.filterMap_append, List.filterMap_append, ih h]

theorem boardCards_setCell {b : Board} {x y : Nat} {s : Space} (s' : Space)
    (h : getCell b x y = some s) (hcard : s'.card = s.card) :
    boardCards (setCell b x y s') = boardCards b := by
  obtain ⟨row, hg, hr⟩ := getCell_some_row h
  have hgd : b.grid.getD y [] = row := by simp [List.getD, hg]
  unfold boardCards setCell
  simp only [hgd]
  exact flatten_filterMap_card_set _ hg (filterMap_card_set s' hr hcard)

theorem boardCards_flip_card (b : Board) (x y : Int) :
    boardCards (Board.flip_card b x y).1 = boardCards b := by
  unfold Board.flip_card
  split
  · rfl
  split
  · rfl
  split
  · rfl
  next space hcell =>
    split
    · rfl
    next c hcard =>
      dsimp only
      split <;> (split <;> exact boardCards_setCell _ hcell rfl)

theorem boardCards_set_control (b : Board) (x y : Int) (p : Option String) :
    boardCards (Board.set_control b x y p).1 = boardCards b := by
  unfold Board.set_control
  split
  · rfl
  split
  · rfl
  split
  · rfl
  next q =>
    split
    · rfl
    split
    · rfl
    next space hcell =>
      split
      · rfl
      next c hcard =>
        split
        · rfl
        dsimp only
        split
        next => exact boardCards_setCell _ hcell rfl
        next => exact boardCards_setCell _ hcell rfl

theorem boardCards_remove_control (b : Board) (x y : Int) :
    boardCards (Board.remove_control b x y).1 = boardCards b := by
  unfold Board.remove_control
  split
  · rfl
  split
  · rfl
  split
  · rfl
  next space hcell =>
    split
    · rfl
    next c hcard =>
      dsimp only
      split
      next => exact boardCards_setCell _ hcell rfl
      next => exact boardCards_setCell _ hcell rfl

theorem cards_eq_of_flip {b b' : Board} {x y : Int} {e : Option String}
    (h : Board.flip_card b x y = (b', e)) : boardCards b' = boardCards b := by
  have := boardCards_flip_card b x y
  rw [h] at this
  exact this

theorem cards_eq_of_setc {b b' : Board} {x y : Int} {p : Option String} {e : Option String}
    (h : Board.set_control b x y p = (b', e)) : boardCards b' = boardCards b := by
  have := boardCards_set_control b x y p
  rw [h] at this
  exact this

theorem boardCards_gm_flip (st : GMState) (p : String) (x y : Int) :
    boardCards (GameManager.flip st p x y).1.board = boardCards st.board := by
  unfold GameManager.flip
  split
  · rfl
  split
  · rfl
  next space hcell =>
    split
    · rfl
    next card_value hcard =>
      split
      next b1 m heq => exact cards_eq_of_flip heq
      next b1 heq =>
        split
        next b2 m heq2 => exact (cards_eq_of_setc heq2).trans (cards_eq_of_flip heq)
        next b2 heq2 => exact (cards_eq_of_setc heq2).trans (cards_eq_of_flip heq)

theorem boardCards_gm_check_match (st : GMState) (p : String) :
    boardCards (GameManager.check_match st p).1.board = boardCards st.board := by
  unfold GameManager.check_match
  dsimp only
  split
  · rfl
  split
  next =>
    split
    next b1 m1 h1 => exact cards_eq_of_setc h1
    next b1 h1 =>
      split
      next b2 m2 h2 => exact (cards_eq_of_setc h2).trans (cards_eq_of_setc h1)
      next b2 h2 =>
        split
        next b3 m3 h3 =>
          exact (cards_eq_of_flip h3).trans
            ((cards_eq_of_setc h2).trans (cards_eq_of_setc h1))
        next b3 h3 =>
          split
          next b4 m4 h4 =>
            exact (cards_eq_of_flip h4).trans ((cards_eq_of_flip h3).trans
              ((cards_eq_of_setc h2).trans (cards_eq_of_setc h1)))
          next b4 h4 =>
            exact (cards_eq_of_flip h4).trans ((cards_eq_of_flip h3).trans
              ((cards_eq_of_setc h2).trans (cards_eq_of_setc h1)))
  next =>
    split
    next b1 m1 h1 => exact cards_eq_of_flip h1
    next b1 h1 =>
      split
      next b2 m2 h2 => exact (cards_eq_of_flip h2).trans (cards_eq_of_flip h1)
      next b2 h2 =>
        split
        next b3 m3 h3 =>
          exact (cards_eq_of_setc h3).trans
            ((cards_eq_of_flip h2).trans (cards_eq_of_flip h1))
        next b3 h3 =>
          split
          next b4 m4 h4 =>
            exact (cards_eq_of_setc h4).trans ((cards_eq_of_setc h3).trans
              ((cards_eq_of_flip h2).trans (cards_eq_of_flip h1)))
          next b4 h4 =>
            exact (cards_eq_of_setc h4).trans ((cards_eq_of_setc h3).trans
              ((cards_eq_of_flip h2).trans (cards_eq_of_flip h1)))

/-- Claim C1 (code bug, evaluated at the failing input): on the 2×2 board
of the specification scenario, player P1 flips (0,0)=A and (1,0)=A; both
flips report ok but the second flip does not resolve the turn (its result
carries no `matched` key and the pending selection keeps both cards), and
the separate `check_match` call — the only match-resolution code — always
fails with `Error: player_id must be string` because it passes Python
`None` to `Board.set_control`, so the two equal cards stay face-up and
controlled, the score table stays empty, and the pending selection is not
cleared.  On the unequal scenario (P1 flips (0,0)=A then (0,1)=B),
`check_match` flips both cards back face-down but still reports
`ok = false` with the same error and leaves the pending selection in
place, instead of reporting `matched = false` with a cleared selection. -/
theorem c1_turn_resolution_broken :
    List.lookup "ok" (GameManager.flip state0 "P1" 0 0).2 = some (JVal.jb true) ∧
    List.lookup "ok" (GameManager.flip state1 "P1" 1 0).2 = some (JVal.jb true) ∧
    List.lookup "matched" (GameManager.flip state1 "P1" 1 0).2 = none ∧
    List.lookup "P1" state2.pending_cards = some [(0, 0, "A"), (1, 0, "A")] ∧
    GameManager.check_match state2 "P1" =
      (state2, [("ok", JVal.jb false),
                ("message", JVal.js "Error: player_id must be string")]) ∧
    getCell state2.board 0 0 = some { card := some "A", is_face_up := true,
                                      controlled_by := some "P1" } ∧
    getCell state2.board 1 0 = some { card := some "A", is_face_up := true,
                                      controlled_by := some "P1" } ∧
    state2.scores = [] ∧
    (GameManager.check_match state1b "P1").2 =
      [("ok", JVal.jb false), ("message", JVal.js "Error: player_id must be string")] ∧
    getCell (GameManager.check_match state1b "P1").1.board 0 0 =
      some { card := some "A", is_face_up := false, controlled_by := none } ∧
    getCell (GameManager.check_match state1b "P1").1.board 0 1 =
      some { card := some "B", is_face_up := false, controlled_by := none } ∧
    List.lookup "P1" (GameManager.check_match state1b "P1").1.pending_cards =
      some [(0, 0, "A"), (0, 1, "B")] :=
  ⟨rfl, rfl, rfl, rfl, rfl, rfl, rfl, rfl, rfl, rfl, rfl, rfl⟩

/-- Claim C2 (code bug, evaluated at the failing input): with (0,0)
face-up and controlled by P1, a flip of (0,0) by P2 does fail — but not
with a `Contested` rejection: `GameManager.flip` never checks the
controller; it calls `Board.flip_card`, which toggles the cell face-down
and strips the control held by P1, and only then fails inside
`Board.set_control`.  P1 does not still hold control and the cell state is
changed by the attempt, contrary to the claim. -/
theorem c2_contested_flip_strips_control :
    getCell state1.board 0 0 = some { card := some "A", is_face_up := true,
                                      controlled_by := some "P1" } ∧
    List.lookup "ok" (GameManager.flip state1 "P2" 0 0).2 = some (JVal.jb false) ∧
    List.lookup "message" (GameManager.flip state1 "P2" 0 0).2 =
      some (JVal.js "Error: Card at (0, 0) must be face-up to control") ∧
    getCell (GameManager.flip state1 "P2" 0 0).1.board 0 0 =
      some { card := some "A", is_face_up := false, controlled_by := none } :=
  ⟨rfl, rfl, rfl, rfl⟩

/-- Claim C7 (code bug): `GameManager.watch` calls
`self.board.wait_for_change()`, a method `Board` does not define, so for
every state and every player the call immediately returns the error dict
— never the `look` projection, and never after suspending for a board
mutation. -/
theorem c7_watch_always_errors :
    ∀ (st : GMState) (p : String),
      GameManager.watch st p =
        (st, [("ok", JVal.jb false),
              ("error", JVal.js "Board object has no attribute wait_for_change")]) ∧
      List.lookup "board" (GameManager.watch st p).2 = none ∧
      List.lookup "ok" (GameManager.watch st p).2 = some (JVal.jb false) :=
  fun st p => ⟨rfl, rfl, rfl⟩

/-- Claim C3, counterexample: on a fresh board every cell is face-down,
yet the projection returned by `look` reports the cell (0,0) with its true
card identity `A` rather than a hidden/unknown marker — the serialized
grid is exactly the internal grid, card values included. -/
theorem c3_counterexample_look_reveals_face_down :
    getCell state0.board 0 0 = some { card := some "A", is_face_up := false,
                                      controlled_by := none } ∧
    List.lookup "board" (GameManager.look state0 "P1") =
      some (JVal.jgrid state0.board.grid) ∧
    (state0.board.grid.getD 0 []).getD 0
        { card := none, is_face_up := false, controlled_by := none } =
      { card := some "A", is_face_up := false, controlled_by := none } :=
  ⟨rfl, rfl, rfl⟩

/-- Claim C4, counterexample: flipping the face-up uncontrolled cell (0,0)
fails (`set_control` rejects the now face-down cell), yet the board is not
left as it was — the cell has been toggled face-down by the partial
mutation. -/
theorem c4_counterexample_failed_flip_mutates :
    List.lookup "ok" (GameManager.flip stateUp "P1" 0 0).2 = some (JVal.jb false) ∧
    getCell stateUp.board 0 0 = some { card := some "A", is_face_up := true,
                                       controlled_by := none } ∧
    getCell (GameManager.flip stateUp "P1" 0 0).1.board 0 0 =
      some { card := some "A", is_face_up := false, controlled_by := none } ∧
    (GameManager.flip stateUp "P1" 0 0).1 ≠ stateUp :=
  ⟨rfl, rfl, rfl, by decide⟩

/-- Claim C5, counterexample: the board reached from a fresh board by
`flip_card(0,0)` followed by `remove_card(0,0)` — a legal sequence of Board
operations, since `remove_card` deliberately skips `check_rep` — holds the
card `A` in exactly one cell. -/
theorem c5_counterexample_single_occurrence :
    BoardReach (Board.remove_card boardUp 0 0).1 ∧
    (boardCards (Board.remove_card boardUp 0 0).1).count "A" = 1 :=
  ⟨BoardReach.remv _ 0 0 (BoardReach.flip _ 0 0
      (BoardReach.init 2 2 ["A", "B"] id board0 rfl)),
   rfl⟩

/-- Claim C9, counterexample: `Board.flip_card` is a toggle, so flipping
the face-up uncontrolled card at (0,0) twice in succession returns it to
face-up — its original state — not to face-down as the claim states. -/
theorem c9_counterexample_double_flip_ends_face_up :
    getCell boardUp 0 0 = some { card := some "A", is_face_up := true,
                                 controlled_by := none } ∧
    getCell (Board.flip_card (Board.flip_card boardUp 0 0).1 0 0).1 0 0 =
      some { card := some "A", is_face_up := true, controlled_by := none } ∧
    (getCell (Board.flip_card (Board.flip_card boardUp 0 0).1 0 0).1 0 0).map
        Space.is_face_up ≠ some false :=
  ⟨rfl, rfl, by decide⟩

theorem optList_map_some {α : Type} (l : List α) : optList (l.map some) = some l := by
  induction l with
  | nil => rfl
  | cons a t ih => simp [optList, ih]

theorem map_range'_pointwise {α : Type} (F : Nat → Option α) :
    ∀ (L : List α) (k : Nat),
      (∀ j, (hj : j < L.length) → F (k + j) = some (L.get ⟨j, hj⟩)) →
      (List.range' k L.length).map F = L.map some := by
  intro L
  induction L with
  | nil => intro k _; rfl
  | cons a t ih =>
    intro k h
    have h0 : F k = some a := by simpa using h 0 (Nat.succ_pos _)
    have ht : ∀ j, (hj : j < t.length) → F (k + 1 + j) = some (t.get ⟨j, hj⟩) := by
      intro j hj
      have hkj : k + (j + 1) = k + 1 + j := by omega
      have := h (j + 1) (Nat.succ_lt_succ hj)
      rw [hkj] at this
      simpa using this
    show (List.range' k (t.length + 1)).map F = (a :: t).map some
    rw [List.range'_succ k t.length 1]
    simp only [List.map_cons, h0, ih (k + 1) ht]

theorem map_range_pointwise {α : Type} (F : Nat → Option α) (L : List α) (n : Nat)
    (hn : L.length = n)
    (h : ∀ j, (hj : j < L.length) → F j = some (L.get ⟨j, hj⟩)) :
    (List.range n).map F = L.map some := by
  subst hn
  rw [List.range_eq_range']
  exact map_range'_pointwise F L 0 (fun j hj => by simpa using h j hj)

theorem serialize_board_eq_grid (st : GMState)
    (hh : st.board.grid.length = st.board.height)
    (hw : ∀ row ∈ st.board.grid, row.length = st.board.width) :
    GameManager.serialize_board st = st.board.grid := by
  unfold GameManager.serialize_board GameManager.serializeCells
  have inner : ∀ y (hy : y < st.board.grid.length),
      optList ((List.range st.board.width).map (fun x => getCell st.board x y)) =
        some (st.board.grid.get ⟨y, hy⟩) := by
    intro y hy
    have hg : st.board.grid[y]? = some (st.board.grid.get ⟨y, hy⟩) := by
      simp [List.getElem?_eq_getElem hy]
    have hlen : (st.board.grid.get ⟨y, hy⟩).length = st.board.width :=
      hw _ (st.board.grid.get_mem _ _)
    have hcells : (fun x => getCell st.board x y) =
        (fun x => (st.board.grid.get ⟨y, hy⟩)[x]?) := by
      funext x
      unfold getCell
      rw [hg]
      rfl
    rw [hcells,
      map_range_pointwise _ _ _ hlen (fun j hj => by simp [List.getElem?_eq_getElem hj]),
      optList_map_some]
  have houter : (List.range st.board.height).map
      (fun y => optList ((List.range st.board.width).map (fun x => getCell st.board x y)))
      = st.board.grid.map some :=
    map_range_pointwise _ _ _ hh (fun j hj => inner j hj)
  rw [houter, optList_map_some]

/-- Claim C3 (amended): `look` does not hide face-down cells — it returns,
for every board whose grid dimensions are consistent, the internal grid
verbatim: every cell is reported with its true card identity, face-up flag
and controller, whether or not the cell is face-up, along with the
dimensions, the live score table, and `ok = True`. -/
theorem c3_amended_look_exposes_full_grid (st : GMState) (p : String)
    (hh : st.board.grid.length = st.board.height)
    (hw : ∀ row ∈ st.board.grid, row.length = st.board.width) :
    GameManager.look st p =
      [("board", JVal.jgrid st.board.grid),
       ("width", JVal.jn st.board.width),
       ("height", JVal.jn st.board.height),
       ("scores", JVal.jscores st.scores),
       ("ok", JVal.jb true)] := by
  unfold GameManager.look
  rw [serialize_board_eq_grid st hh hw]

/-- Witness for the amended C3 theorem at the concrete fresh 2×2 board. -/
theorem c3_amended_witness :
    GameManager.look state0 "P1" =
      [("board", JVal.jgrid state0.board.grid),
       ("width", JVal.jn state0.board.width),
       ("height", JVal.jn state0.board.height),
       ("scores", JVal.jscores state0.scores),
       ("ok", JVal.jb true)] :=
  c3_amended_look_exposes_full_grid state0 "P1" (by decide) (by decide)

theorem flip_card_fst {b : Board} {x y : Int} {c : String} {fu : Bool} {cb : Option String}
    (hx0 : 0 ≤ x) (hxw : x < (b.width : Int)) (hy0 : 0 ≤ y) (hyh : y < (b.height : Int))
    (hcell : getCell b x.toNat y.toNat =
      some { card := some c, is_face_up := fu, controlled_by := cb }) :
    (Board.flip_card b x y).1 =
      setCell b x.toNat y.toNat
        { card := some c, is_face_up := !fu,
          controlled_by := if !fu then cb else none } := by
  unfold Board.flip_card
  rw [if_neg (not_not_intro ⟨hx0, hxw⟩), if_neg (not_not_intro ⟨hy0, hyh⟩), hcell]
  dsimp only
  split <;> split <;> rfl

/-- Claim C9 (amended): for a face-up, uncontrolled card, one `flip_card`
turns it face-down and a second `flip_card` turns it face-up again, so two
flips in succession return the cell to its original face-up, uncontrolled
state — a single flip, not two, returns it to face-down. -/
theorem c9_amended_double_flip_returns_face_up
    (b : Board) (x y : Int) (c : String)
    (hx0 : 0 ≤ x) (hxw : x < (b.width : Int)) (hy0 : 0 ≤ y) (hyh : y < (b.height : Int))
    (hcell : getCell b x.toNat y.toNat =
      some { card := some c, is_face_up := true, controlled_by := none }) :
    getCell (Board.flip_card b x y).1 x.toNat y.toNat =
      some { card := some c, is_face_up := false, controlled_by := none } ∧
    getCell (Board.flip_card (Board.flip_card b x y).1 x y).1 x.toNat y.toNat =
      some { card := some c, is_face_up := true, controlled_by := none } := by
  have h1 := flip_card_fst hx0 hxw hy0 hyh hcell
  have hcell1 : getCell (Board.flip_card b x y).1 x.toNat y.toNat =
      some { card := some c, is_face_up := false, controlled_by := none } := by
    rw [h1]
    exact getCell_setCell_self _ hcell
  refine ⟨hcell1, ?_⟩
  have h2 := flip_card_fst (b := (Board.flip_card b x y).1)
    hx0 (by rw [h1]; exact hxw) hy0 (by rw [h1]; exact hyh) hcell1
  rw [h2]
  exact getCell_setCell_self _ hcell1

/-- Witness for the amended C9 theorem at the concrete board `boardUp`. -/
theorem c9_amended_witness :
    getCell (Board.flip_card boardUp 0 0).1 0 0 =
      some { card := some "A", is_face_up := false, controlled_by := none } ∧
    getCell (Board.flip_card (Board.flip_card boardUp 0 0).1 0 0).1 0 0 =
      some { card := some "A", is_face_up := true, controlled_by := none } :=
  c9_amended_double_flip_returns_face_up boardUp 0 0 "A"
    (by decide) (by decide) (by decide) (by decide) rfl

/-- Claim C4 (amended): a `flip` that fails on validation done before any
mutation — out-of-bounds coordinates, a missing grid row, or an empty cell
— leaves the session state exactly as it was and reports `ok = false`; but
(per the counterexample) a flip that fails after the `flip_card` mutation,
because `set_control` rejects the freshly face-down cell, keeps the
partial mutation: failing flips are not validate-then-commit in general. -/
theorem c4_amended_early_flip_failures_pure (st : GMState) (p : String) (x y : Int)
    (h : (x < 0 ∨ (st.board.width : Int) ≤ x ∨ y < 0 ∨ (st.board.height : Int) ≤ y)
         ∨ (getCell st.board x.toNat y.toNat).bind Space.card = none) :
    (GameManager.flip st p x y).1 = st ∧
    List.lookup "ok" (GameManager.flip st p x y).2 = some (JVal.jb false) := by
  unfold GameManager.flip
  by_cases hb : (x < 0 || (st.board.width : Int) ≤ x || y < 0 ||
      (st.board.height : Int) ≤ y) = true
  · rw [if_pos hb]
    exact ⟨rfl, rfl⟩
  · rcases h with hbound | hcard
    · refine absurd ?_ hb
      simp only [Bool.or_eq_true, decide_eq_true_eq]
      tauto
    · rw [if_neg hb]
      cases hc : getCell st.board x.toNat y.toNat with
      | none => exact ⟨rfl, rfl⟩
      | some s =>
        rw [hc] at hcard
        simp only [Option.some_bind] at hcard
        dsimp only
        cases hsc : s.card with
        | none => exact ⟨rfl, rfl⟩
        | some cv =>
          rw [hsc] at hcard
          exact absurd hcard (by simp)

/-- Witness for the amended C4 theorem: an out-of-bounds flip at x = -1. -/
theorem c4_amended_witness :
    (GameManager.flip state0 "P1" (-1) 0).1 = state0 ∧
    List.lookup "ok" (GameManager.flip state0 "P1" (-1) 0).2 = some (JVal.jb false) :=
  c4_amended_early_flip_failures_pure state0 "P1" (-1) 0 (Or.inl (Or.inl (by decide)))

theorem ctrlFaceUp_setCell {b : Board} {x y : Nat} {s' : Space}
    (hb : CtrlFaceUp b) (hs' : s'.controlled_by ≠ none → s'.is_face_up = true) :
    CtrlFaceUp (setCell b x y s') := by
  intro row hrow s hs hctrl
  unfold setCell at hrow
  dsimp only at hrow
  rcases List.mem_or_eq_of_mem_set hrow with hrr | hre
  · exact hb row hrr s hs hctrl
  · subst hre
    rcases List.mem_or_eq_of_mem_set hs with hss | hse
    · cases hg : b.grid[y]? with
      | none =>
        have : b.grid.getD y [] = [] := by simp [List.getD, hg]
        rw [this] at hss
        simp at hss
      | some row0 =>
        have hmem : row0 ∈ b.grid := List.getElem?_mem hg
        have : b.grid.getD y [] = row0 := by simp [List.getD, hg]
        rw [this] at hss
        exact hb row0 hmem s hss hctrl
    · subst hse
      exact hs' hctrl

theorem buildRows_mem {w : Nat} {row : List Space} {s : Space} (hs : s ∈ row) :
    ∀ {h : Nat} {l : List String}, row ∈ buildRows l w h →
      s.is_face_up = false ∧ s.controlled_by = none := by
  intro h
  induction h with
  | zero => intro l hr; simp [buildRows] at hr
  | succ n ih =>
    intro l hr
    rw [buildRows] at hr
    rcases List.mem_cons.mp hr with hre | hr'
    · subst hre
      obtain ⟨c, _, hce⟩ := List.mem_map.mp hs
      rw [← hce]
      exact ⟨rfl, rfl⟩
    · exact ih hr'

theorem init_ok_shape {w h : Int} {cards : List String}
    {shuffle : List String → List String} {b : Board}
    (hinit : Board.init w h cards shuffle = .ok b) :
    b.width = w.toNat ∧ b.height = h.toNat ∧
    b.grid = buildRows (shuffle (dupEach cards)) w.toNat h.toNat ∧
    b.check_rep = true ∧ 0 < w ∧ 0 < h ∧ cards.length ≠ 0 ∧
    cards.length * 2 = w.toNat * h.toNat := by
  unfold Board.init at hinit
  split at hinit
  · exact absurd hinit (by simp)
  split at hinit
  · exact absurd hinit (by simp)
  split at hinit
  · exact absurd hinit (by simp)
  split at hinit
  · exact absurd hinit (by simp)
  dsimp only at hinit
  split at hinit
  next hck =>
    next hlen2 =>
      next hne =>
        next hh =>
          next hw =>
            rw [Except.ok.injEq] at hinit
            subst hinit
            refine ⟨rfl, rfl, rfl, hck, by omega, by omega, ?_, ?_⟩
            · simpa using hne
            · have := hlen2
              simpa using this
  next hck => exact absurd hinit (by simp)

theorem ctrlFaceUp_init {w h : Int} {cards : List String}
    {shuffle : List String → List String} {b : Board}
    (hinit : Board.init w h cards shuffle = .ok b) : CtrlFaceUp b := by
  obtain ⟨-, -, hgrid, -, -, -, -, -⟩ := init_ok_shape hinit
  intro row hrow s hs hctrl
  rw [hgrid] at hrow
  exact absurd (buildRows_mem hs hrow).2 hctrl

theorem ctrlFaceUp_flip_card (b : Board) (x y : Int) (hb : CtrlFaceUp b) :
    CtrlFaceUp (Board.flip_card b x y).1 := by
  unfold Board.flip_card
  split
  · exact hb
  split
  · exact hb
  split
  · exact hb
  next space hcell =>
    split
    · exact hb
    next c hcard =>
      dsimp only
      split
      next hfu => exact fun row hrow s hs hctrl =>
        ctrlFaceUp_setCell hb (fun _ => hfu) row (by
          revert hrow
          split <;> exact id) s hs hctrl
      next hfu => exact fun row hrow s hs hctrl =>
        ctrlFaceUp_setCell hb (fun hc => absurd rfl hc) row (by
          revert hrow
          split <;> exact id) s hs hctrl

theorem ctrlFaceUp_set_control (b : Board) (x y : Int) (p : Option String)
    (hb : CtrlFaceUp b) : CtrlFaceUp (Board.set_control b x y p).1 := by
  unfold Board.set_control
  split
  · exact hb
  split
  · exact hb
  split
  · exact hb
  next q =>
    split
    · exact hb
    split
    · exact hb
    next space hcell =>
      split
      · exact hb
      next c hcard =>
        split
        next => exact hb
        next hfu =>
          dsimp only
          split
          next => exact ctrlFaceUp_setCell hb (fun _ => not_not.mp hfu)
          next => exact ctrlFaceUp_setCell hb (fun _ => not_not.mp hfu)

theorem ctrlFaceUp_remove_control (b : Board) (x y : Int) (hb : CtrlFaceUp b) :
    CtrlFaceUp (Board.remove_control b x y).1 := by
  unfold Board.remove_control
  split
  · exact hb
  split
  · exact hb
  split
  · exact hb
  next space hcell =>
    split
    · exact hb
    next c hcard =>
      dsimp only
      split
      next => exact ctrlFaceUp_setCell hb (fun hc => absurd rfl hc)
      next => exact ctrlFaceUp_setCell hb (fun hc => absurd rfl hc)

theorem ctrlFaceUp_remove_card (b : Board) (x y : Int) (hb : CtrlFaceUp b) :
    CtrlFaceUp (Board.remove_card b x y).1 := by
  unfold Board.remove_card
  split
  · exact hb
  split
  · exact hb
  split
  · exact hb
  next space hcell =>
    split
    · exact hb
    next c hcard =>
      split
      next => exact hb
      next => exact ctrlFaceUp_setCell hb (fun hc => absurd rfl hc)

/-- Claim C6: for every board state reachable from a freshly created board
by any sequence of Board mutators, every cell with a non-null controller
is face-up; and a successful `Board.flip_card` that leaves the target cell
face-down always leaves it uncontrolled in the same transition. -/
theorem c6_controlled_implies_face_up :
    (∀ b : Board, BoardReach b → CtrlFaceUp b) ∧
    (∀ (b : Board) (x y : Int) (b' : Board),
      Board.flip_card b x y = (b', none) →
      ∀ s : Space, getCell b' x.toNat y.toNat = some s → s.is_face_up = false →
        s.controlled_by = none) := by
  constructor
  · intro b hreach
    induction hreach with
    | init w h cards shuffle b hinit => exact ctrlFaceUp_init hinit
    | flip b x y _ ih => exact ctrlFaceUp_flip_card b x y ih
    | setc b x y p _ ih => exact ctrlFaceUp_set_control b x y p ih
    | remc b x y _ ih => exact ctrlFaceUp_remove_control b x y ih
    | remv b x y _ ih => exact ctrlFaceUp_remove_card b x y ih
  · intro b x y b' heq s hcell hfd
    unfold Board.flip_card at heq
    split at heq
    · simp at heq
    split at heq
    · simp at heq
    split at heq
    · simp at heq
    next space hcell0 =>
      split at heq
      · simp at heq
      next c hcard =>
        dsimp only at heq
        split at heq
        next hck =>
          split at heq
          next =>
            rw [Prod.mk.injEq] at heq
            obtain ⟨hb', -⟩ := heq
            subst hb'
            rw [getCell_setCell_self _ hcell0, Option.some.injEq] at hcell
            subst hcell
            exact absurd hfd (by simp [hck])
          next => simp at heq
        next hck =>
          split at heq
          next =>
            rw [Prod.mk.injEq] at heq
            obtain ⟨hb', -⟩ := heq
            subst hb'
            rw [getCell_setCell_self _ hcell0, Option.some.injEq] at hcell
            subst hcell
            rfl
          next => simp at heq

/-- Witness for C6: the invariant holds on the concrete fresh board
`board0`, and the concrete flip of the face-up card on `boardUp` leaves the
face-down cell uncontrolled. -/
theorem c6_witness :
    CtrlFaceUp board0 ∧
    (Space.mk (some "A") false none).controlled_by = none :=
  ⟨c6_controlled_implies_face_up.1 board0
      (BoardReach.init 2 2 ["A", "B"] id board0 rfl),
   c6_controlled_implies_face_up.2 boardUp 0 0 (Board.flip_card boardUp 0 0).1
      rfl (Space.mk (some "A") false none) rfl rfl⟩

/-- Claim C5 (amended): along every session reachable from a fresh
`GameManager` on a successfully constructed board, every card identifier
occurs in exactly 0 or 2 cells — the session layer only ever calls the
card-preserving mutators (`flip_card`, `set_control`), never `remove_card`.
The unamended claim fails because `Board.remove_card`, a Board operation,
deliberately skips `check_rep` and can retire a single member of a pair,
leaving a reachable board where a card occurs exactly once. -/
theorem c5_amended_session_preserves_pairs
    (w h : Int) (cards : List String) (shuffle : List String → List String)
    (b : Board) (st : GMState)
    (hinit : Board.init w h cards shuffle = .ok b)
    (hreach : GMReach { board := b, scores := [], pending_cards := [] } st) :
    ∀ c : String,
      (boardCards st.board).count c = 0 ∨ (boardCards st.board).count c = 2 := by
  have hck : b.check_rep = true := (init_ok_shape hinit).2.2.2.1
  have hcards : boardCards st.board = boardCards b := by
    induction hreach with
    | refl => rfl
    | flip st' p x y _ ih => rw [boardCards_gm_flip]; exact ih
    | check st' p _ ih => rw [boardCards_gm_check_match]; exact ih
    | watch st' p _ ih => exact ih
  intro c
  rw [hcards]
  unfold Board.check_rep at hck
  simp only [Bool.and_eq_true, List.all_eq_true, beq_iff_eq] at hck
  obtain ⟨-, hcount⟩ := hck
  by_cases hc : c ∈ boardCards b
  · right
    exact hcount c hc
  · left
    exact List.count_eq_zero.mpr hc

/-- Witness for the amended C5 theorem at the fresh concrete session. -/
theorem c5_amended_witness :
    (boardCards state0.board).count "A" = 0 ∨
    (boardCards state0.board).count "A" = 2 :=
  c5_amended_session_preserves_pairs 2 2 ["A", "B"] id board0 state0 rfl
    (GMReach.refl _) "A"

theorem c10_flip_aux (st : GMState) (p : String) (x y : Int) :
    ∃ bv : Bool,
      List.lookup "ok" (GameManager.flip st p x y).2 = some (JVal.jb bv) ∧
      (bv = false → ∃ m : String,
        List.lookup "message" (GameManager.flip st p x y).2 = some (JVal.js m)) := by
  unfold GameManager.flip
  split
  · exact ⟨false, rfl, fun _ => ⟨_, rfl⟩⟩
  split
  · exact ⟨false, rfl, fun _ => ⟨_, rfl⟩⟩
  next space hcell =>
    split
    · exact ⟨false, rfl, fun _ => ⟨_, rfl⟩⟩
    next cv hcard =>
      split
      next b1 m heq => exact ⟨false, rfl, fun _ => ⟨_, rfl⟩⟩
      next b1 heq =>
        split
        next b2 m heq2 => exact ⟨false, rfl, fun _ => ⟨_, rfl⟩⟩
        next b2 heq2 => exact ⟨true, rfl, fun hc => Bool.noConfusion hc⟩

theorem c10_check_match_aux (st : GMState) (p : String) :
    ∃ bv : Bool,
      List.lookup "ok" (GameManager.check_match st p).2 = some (JVal.jb bv) ∧
      (bv = false → ∃ m : String,
        List.lookup "message" (GameManager.check_match st p).2 = some (JVal.js m)) := by
  unfold GameManager.check_match
  dsimp only
  split
  · exact ⟨false, rfl, fun _ => ⟨_, rfl⟩⟩
  split
  next =>
    split
    next b1 m1 h1 => exact ⟨false, rfl, fun _ => ⟨_, rfl⟩⟩
    next b1 h1 =>
      split
      next b2 m2 h2 => exact ⟨false, rfl, fun _ => ⟨_, rfl⟩⟩
      next b2 h2 =>
        split
        next b3 m3 h3 => exact ⟨false, rfl, fun _ => ⟨_, rfl⟩⟩
        next b3 h3 =>
          split
          next b4 m4 h4 => exact ⟨false, rfl, fun _ => ⟨_, rfl⟩⟩
          next b4 h4 => exact ⟨true, rfl, fun hc => Bool.noConfusion hc⟩
  next =>
    split
    next b1 m1 h1 => exact ⟨false, rfl, fun _ => ⟨_, rfl⟩⟩
    next b1 h1 =>
      split
      next b2 m2 h2 => exact ⟨false, rfl, fun _ => ⟨_, rfl⟩⟩
      next b2 h2 =>
        split
        next b3 m3 h3 => exact ⟨false, rfl, fun _ => ⟨_, rfl⟩⟩
        next b3 h3 =>
          split
          next b4 m4 h4 => exact ⟨false, rfl, fun _ => ⟨_, rfl⟩⟩
          next b4 h4 => exact ⟨true, rfl, fun hc => Bool.noConfusion hc⟩

theorem c10_watch_aux (st : GMState) (p : String) :
    List.lookup "ok" (GameManager.watch st p).2 = some (JVal.jb false) ∧
    ∃ m : String, List.lookup "error" (GameManager.watch st p).2 = some (JVal.js m) :=
  ⟨rfl, ⟨_, rfl⟩⟩

/-- Claim C10: for every session state, player string and integer
coordinates, each public `GameManager` operation returns a dict binding
`"ok"` to a boolean (no exception escapes: every raise site is inside a
`try` whose handler builds such a dict), and whenever `ok` is `false` the
dict also carries a `"message"` or `"error"` string. -/
theorem c10_public_ops_always_return_ok :
    ∀ (st : GMState) (p : String) (x y : Int),
      hasOkBool (GameManager.look st p) ∧
      hasOkBool (GameManager.flip st p x y).2 ∧
      hasOkBool (GameManager.check_match st p).2 ∧
      hasOkBool (GameManager.watch st p).2 ∧
      (List.lookup "ok" (GameManager.flip st p x y).2 = some (JVal.jb false) →
        hasFailureInfo (GameManager.flip st p x y).2) ∧
      (List.lookup "ok" (GameManager.check_match st p).2 = some (JVal.jb false) →
        hasFailureInfo (GameManager.check_match st p).2) ∧
      hasFailureInfo (GameManager.watch st p).2 := by
  intro st p x y
  obtain ⟨bf, hbf, hmf⟩ := c10_flip_aux st p x y
  obtain ⟨bc, hbc, hmc⟩ := c10_check_match_aux st p
  refine ⟨⟨true, rfl⟩, ⟨bf, hbf⟩, ⟨bc, hbc⟩, ⟨false, (c10_watch_aux st p).1⟩,
    ?_, ?_, Or.inr (c10_watch_aux st p).2⟩
  · intro hok
    rw [hbf] at hok
    simp only [Option.some.injEq, JVal.jb.injEq] at hok
    exact Or.inl (hmf hok)
  · intro hok
    rw [hbc] at hok
    simp only [Option.some.injEq, JVal.jb.injEq] at hok
    exact Or.inl (hmc hok)

/-- Witness for C10 at a concrete state, including a failing flip whose
dict carries a message and the always-failing watch. -/
theorem c10_witness :
    hasOkBool (GameManager.look state0 "P1") ∧
    hasFailureInfo (GameManager.flip state0 "P1" (-1) 0).2 ∧
    hasFailureInfo (GameManager.watch state0 "P1").2 := by
  obtain ⟨h1, h2, h3, h4, h5, h6, h7⟩ :=
    c10_public_ops_always_return_ok state0 "P1" (-1) 0
  exact ⟨h1, h5 rfl, h7⟩

theorem dupEach_length (l : List String) : (dupEach l).length = 2 * l.length := by
  induction l with
  | nil => rfl
  | cons a t ih =>
    show (a :: a :: dupEach t).length = 2 * (a :: t).length
    simp [ih] <;> omega

theorem dupEach_count (l : List String) (c : String) :
    (dupEach l).count c = 2 * l.count c := by
  induction l with
  | nil => rfl
  | cons a t ih =>
    show (a :: a :: dupEach t).count c = 2 * ((a :: t).count c)
    simp only [List.count_cons, ih, beq_iff_eq]
    by_cases h : a = c
    · simp only [if_pos h]
      omega
    · simp only [if_neg h]
      omega

theorem dupEach_dedup_perm {t : List String} (h2 : ∀ c ∈ t, t.count c = 2) :
    (dupEach t.dedup).Perm t := by
  apply List.perm_iff_count.mpr
  intro c
  rw [dupEach_count, List.count_dedup]
  by_cases hc : c ∈ t
  · simp [hc, h2 c hc]
  · simp [hc, List.count_eq_zero.mpr hc]

theorem buildRows_cards :
    ∀ (h : Nat) (l : List String) (w : Nat), l.length = w * h →
      ((buildRows l w h).flatten).filterMap Space.card = l := by
  intro h
  induction h with
  | zero =>
    intro l w hlen
    have hnil : l = [] := List.eq_nil_of_length_eq_zero (by simpa using hlen)
    subst hnil
    rfl
  | succ n ih =>
    intro l w hlen
    rw [buildRows, List.flatten_cons, List.filterMap_append]
    have h1 : ((l.take w).map
        (fun c => ({ card := some c, is_face_up := false,
                     controlled_by := none } : Space))).filterMap Space.card
        = l.take w := by
      rw [List.filterMap_map]
      exact List.filterMap_some _
    have hdlen : (l.drop w).length = w * n := by
      have hlen' : l.length = w * n + w := by
        rw [hlen, Nat.mul_succ]
      rw [List.length_drop]
      omega
    rw [h1, ih (l.drop w) w hdlen, List.take_append_drop]

/-- Claim C8: the loader parses the first stripped line as two positive
integers `width height`; the remaining stripped lines are whitespace-split
into card tokens; it succeeds only when the token count equals
width×height and every token occurs exactly twice, and then the board has
those dimensions and its card multiset is a permutation of the file
tokens; conversely, whenever the first line parses but the token count or
the twice-each constraint is violated, the loader fails with an error.
`shuffle` stands for `random.shuffle` together with the unspecified
`set(...)` iteration order, hypothesised to permute its input. -/
theorem c8_parse_from_file (lines : List String)
    (shuffle : List String → List String)
    (hshfl : ∀ l : List String, (shuffle l).Perm l) :
    (∀ b : Board, Board.parse_from_file lines shuffle = .ok b →
      ∃ w h : Int, parseDims (lines.getD 0 "") = .ok (w, h) ∧
        (b.width : Int) = w ∧ (b.height : Int) = h ∧
        (tokensOf lines).length = b.width * b.height ∧
        (∀ c ∈ tokensOf lines, (tokensOf lines).count c = 2) ∧
        (boardCards b).Perm (tokensOf lines)) ∧
    (∀ w h : Int, parseDims (lines.getD 0 "") = .ok (w, h) →
      ((tokensOf lines).length ≠ w.toNat * h.toNat ∨
        ∃ c ∈ tokensOf lines, (tokensOf lines).count c ≠ 2) →
      ∃ e : String, Board.parse_from_file lines shuffle = .error e) := by
  constructor
  · intro b hp
    unfold Board.parse_from_file at hp
    split at hp
    · exact absurd hp (by simp)
    cases hdims : parseDims (lines.getD 0 "") with
    | error e =>
      rw [hdims] at hp
      exact absurd hp (by simp)
    | ok wh =>
      obtain ⟨w, h⟩ := wh
      rw [hdims] at hp
      dsimp only at hp
      split at hp
      · exact absurd hp (by simp)
      next hcnt =>
        split at hp
        · exact absurd hp (by simp)
        next hws =>
          split at hp
          · exact absurd hp (by simp)
          next hcnt2 =>
            obtain ⟨hbw, hbh, hgrid, hck, hwpos, hhpos, hne, hlen2⟩ :=
              init_ok_shape hp
            have hlen : (tokensOf lines).length = w.toNat * h.toNat := by
              simpa using hcnt
            have hcount2 : ∀ c ∈ tokensOf lines, (tokensOf lines).count c = 2 := by
              intro c hc
              by_contra hne2
              exact hcnt2 (List.any_eq_true.mpr ⟨c, hc, by simpa using hne2⟩)
            have hshlen :
                (shuffle (dupEach (tokensOf lines).dedup)).length =
                  w.toNat * h.toNat := by
              rw [(hshfl _).length_eq, dupEach_length]
              omega
            have hcards : boardCards b = shuffle (dupEach (tokensOf lines).dedup) := by
              unfold boardCards
              rw [hgrid]
              exact buildRows_cards _ _ _ hshlen
            refine ⟨w, h, rfl, ?_, ?_, ?_, hcount2, ?_⟩
            · rw [hbw]
              exact Int.toNat_of_nonneg (le_of_lt hwpos)
            · rw [hbh]
              exact Int.toNat_of_nonneg (le_of_lt hhpos)
            · rw [hbw, hbh]
              exact hlen
            · rw [hcards]
              exact (hshfl _).trans (dupEach_dedup_perm hcount2)
  · intro w h hdims hviol
    unfold Board.parse_from_file
    split
    · exact ⟨_, rfl⟩
    rw [hdims]
    dsimp only
    split
    next => exact ⟨_, rfl⟩
    next hcnt =>
      have hlen : (tokensOf lines).length = w.toNat * h.toNat := by simpa using hcnt
      rcases hviol with hv | ⟨c, hcmem, hcv⟩
      · exact absurd hlen hv
      · split
        next => exact ⟨_, rfl⟩
        next =>
          split
          next => exact ⟨_, rfl⟩
          next hany =>
            exfalso
            exact hany (List.any_eq_true.mpr ⟨c, hcmem, by simpa using hcv⟩)

/-- Witness for C8: the failure direction at a concrete malformed file
(3 tokens on a 2×2 board) and, implicitly through the same theorem, the
success direction is exercised by the board constructions above. -/
theorem c8_witness :
    ∃ e : String, Board.parse_from_file ["2 2", "A B A"] id = .error e :=
  (c8_parse_from_file ["2 2", "A B A"] id (fun l => List.Perm.refl l)).2 2 2
    (by rfl) (Or.inl (by decide))

end MemoryScramble
